import Mathlib

/-
Verification of the Lead Lifecycle Scheduling Engine of the KBJU bot
repository. The definitions below are a shallow embedding of the Python
sources:

  app/drip_followups.py     (drip follow-up scanner)
  app/database/requests.py  (lead store operations)
  app/webhook.py            (webhook delivery, retry, timer service)
  app/constants.py, config.py (status set and drip thresholds)

Timestamps are modelled as integers (naive UTC datetimes after `_to_naive`);
elapsed minutes, which are Python floats in the source, are modelled as
rationals. The database is modelled as a partial map from Telegram id to the
lead record, and each SQLAlchemy session block becomes a pure state
transformer on that map.
-/

set_option maxHeartbeats 1000000

/-- Lead record: the `users` table columns that the engine reads or writes
(app/database/models.py, class User). -/
structure Lead where
  funnel_status : String
  priority : Option String
  priority_score : Option Int
  first_name : Option String
  drip_stage : Int
  hot_lead_notified_at : Option Int
  last_activity_at : Option Int
  updated_at : Option Int
  created_at : Option Int
deriving DecidableEq, Repr

/-- Lead store: partial map from `tg_id` to the stored lead row. -/
def DB : Type := Int → Option Lead

/-- Singleton store holding one lead, used for concrete evaluations. -/
def db_single (tg_id : Int) (lead : Lead) : DB :=
  fun i => if i = tg_id then some lead else none

/-- Drip stage thresholds in minutes. The scanner module refers to them as
DRIP_24H_MIN / DRIP_48H_MIN / DRIP_72H_MIN; config.py exposes the values as
DRIP_STAGE_1_MIN / DRIP_STAGE_2_MIN / DRIP_STAGE_3_MIN. -/
structure DripThresholds where
  t1 : ℚ
  t2 : ℚ
  t3 : ℚ
deriving DecidableEq, Repr

/-- DRIP_STAGE_1_MIN default from config.py line 90. -/
def DRIP_STAGE_1_MIN : ℚ := 60

/-- DRIP_STAGE_2_MIN default from config.py line 93. -/
def DRIP_STAGE_2_MIN : ℚ := 1440

/-- DRIP_STAGE_3_MIN default from config.py line 96. -/
def DRIP_STAGE_3_MIN : ℚ := 2880

/-- Default threshold table from config.py (60, 1440, 2880 minutes). -/
def defaultThresholds : DripThresholds :=
  ⟨DRIP_STAGE_1_MIN, DRIP_STAGE_2_MIN, DRIP_STAGE_3_MIN⟩

/-- Embedding of `_determine_next_stage` (app/drip_followups.py lines 72-81):
negative stages are clamped to 0, then the three threshold rules are tried in
order and the first matching one gives the next stage. -/
def determine_next_stage (th : DripThresholds) (current_stage : Int)
    (elapsed_minutes : ℚ) : Option Int :=
  let cs : Int := if current_stage < 0 then 0 else current_stage
  if cs = 0 ∧ elapsed_minutes ≥ th.t1 then some 1
  else if cs ≤ 1 ∧ elapsed_minutes ≥ th.t2 then some 2
  else if cs ≤ 2 ∧ elapsed_minutes ≥ th.t3 then some 3
  else none

/-- Stage clamp used by `update_drip_stage`: `max(0, min(3, int(stage)))`
(app/database/requests.py line 245). -/
def clamp_stage (s : Int) : Int := max 0 (min 3 s)

/-- Embedding of `update_drip_stage` (app/database/requests.py lines 242-284).
Non-sequential or non-increasing transitions are refused; otherwise one SQL
UPDATE is issued that matches the row only when the stored stage still equals
the expected current stage (compare-and-set). The Bool is the rowcount test;
a zero-row update rolls back and leaves the store unchanged. -/
def update_drip_stage (db : DB) (tg_id from_stage to_stage : Int)
    (now : Int) : Bool × DB :=
  if clamp_stage to_stage ≤ clamp_stage from_stage then (false, db)
  else if clamp_stage to_stage - clamp_stage from_stage ≠ 1 then (false, db)
  else
    match db tg_id with
    | none => (false, db)
    | some user =>
      if user.drip_stage = clamp_stage from_stage then
        (true, fun i => if i = tg_id then
            some { user with drip_stage := clamp_stage to_stage,
                             updated_at := some now }
          else db i)
      else (false, db)

/-- Sample lead at drip stage 0, used for concrete evaluations. -/
def lead_base : Lead :=
  { funnel_status := "new", priority := none, priority_score := some 0,
    first_name := none, drip_stage := 0, hot_lead_notified_at := none,
    last_activity_at := none, updated_at := none, created_at := none }

/-- Result of advancing `lead_base` from drip stage 0 to 1 at time 5. -/
def lead_one : Lead :=
  { lead_base with drip_stage := 1, updated_at := some 5 }

/-- Keyword arguments supplied by the stage-advance call of `_send_followup`:
`update_drip_stage(snapshot.tg_id, cohort=cohort, stage=stage_to_set)`
(app/drip_followups.py lines 283-285). -/
def advance_call_keywords : List String := ["cohort", "stage"]

/-- Keyword-only parameters declared by `update_drip_stage`:
`(tg_id: int, *, from_stage: int, to_stage: int)`
(app/database/requests.py line 242). -/
def update_drip_stage_keywords : List String := ["from_stage", "to_stage"]

/-- Python keyword binding for a call whose positional part binds: it
succeeds only when every supplied keyword names a declared parameter and
every required keyword-only parameter is supplied; otherwise the call raises
TypeError before the function body runs. -/
def keyword_binding_ok (supplied required : List String) : Bool :=
  supplied.all (fun k => required.contains k) &&
  required.all (fun k => supplied.contains k)

/-- Outcome of one `_send_followup` call (app/drip_followups.py lines
218-301): whether the call reported success, whether the stage-advance call
was attempted, whether the body of `update_drip_stage` actually ran
(argument binding succeeded), and the resulting lead store. Text resolution
(`get_text` over the candidate keys) and message delivery (`bot.send_message`)
are external collaborators, so their outcomes are parameters. -/
structure FollowupResult where
  sent : Bool
  advance_attempted : Bool
  advance_executed : Bool
  db : DB

/-- Embedding of `_send_followup` (app/drip_followups.py lines 218-301): when
no text resolves, or message delivery fails, the call returns false without
touching the store; only after a confirmed successful delivery does it call
`update_drip_stage(tg_id, cohort=..., stage=...)`. That call first binds its
keyword arguments against the callee's keyword-only signature; if binding
succeeds the body (abstracted as the store transformer `advance`) runs, and
if it fails the TypeError is caught by the surrounding `except Exception`
(lines 293-299), a warning is logged, the store is untouched, and the call
still returns true. -/
def send_followup (db : DB) (resolved_text : Option String) (send_ok : Bool)
    (advance : DB → Bool × DB) : FollowupResult :=
  match resolved_text with
  | none => ⟨false, false, false, db⟩
  | some _ =>
    if send_ok then
      if keyword_binding_ok advance_call_keywords update_drip_stage_keywords
      then ⟨true, true, true, (advance db).2⟩
      else ⟨true, true, false, db⟩
    else ⟨false, false, false, db⟩

/-- State of `TimerService` (app/webhook.py lines 283-339): `pending` models
the `active_timers` dict from user id to the scheduled asyncio task,
identified by a freshness counter; `cancelled` records which created tasks
have been cancelled (a cancelled task raises CancelledError inside its
initial sleep and never runs its action); `next_id` is the freshness
counter. -/
structure TimerState where
  pending : Int → Option Nat
  cancelled : Nat → Bool
  next_id : Nat

/-- Embedding of `TimerService.cancel_timer` (app/webhook.py lines 331-339):
if a timer is pending for the user it is cancelled and removed from the
registry, otherwise nothing happens. -/
def cancel_timer (st : TimerState) (user_id : Int) : TimerState :=
  match st.pending user_id with
  | some t =>
    { pending := fun u => if u = user_id then none else st.pending u,
      cancelled := fun m => if m = t then true else st.cancelled m,
      next_id := st.next_id }
  | none => st

/-- Embedding of `TimerService.start_calculated_timer` (app/webhook.py lines
288-328): any previous timer for the user is cancelled first, then a fresh
task is created and registered under the user id. -/
def start_calculated_timer (st : TimerState) (user_id : Int) : TimerState :=
  let st1 := cancel_timer st user_id
  { pending := fun u => if u = user_id then some st1.next_id else st1.pending u,
    cancelled := st1.cancelled,
    next_id := st1.next_id + 1 }

/-- Well-formedness of the timer registry: task ids at or above the freshness
counter have never been created, hence never cancelled, and every pending
task id was created earlier than the counter. -/
def TimerWF (st : TimerState) : Prop :=
  (∀ m, st.next_id ≤ m → st.cancelled m = false) ∧
  (∀ u t, st.pending u = some t → t < st.next_id)

/-- Empty timer registry (module load state of `TimerService`). -/
def timer_init : TimerState :=
  { pending := fun _ => none, cancelled := fun _ => false, next_id := 0 }

/-- Embedding of `was_hot_lead_notified` (app/database/requests.py lines
353-367): a scalar select of `hot_lead_notified_at`; a missing row reads as
null, and the flag is whether the marker is non-null. -/
def was_hot_lead_notified (db : DB) (tg_id : Int) : Bool :=
  match db tg_id with
  | none => false
  | some user => user.hot_lead_notified_at.isSome

/-- Embedding of `mark_hot_lead_notified` (app/database/requests.py lines
370-390): sets the `hot_lead_notified_at` marker of the user row to the
current time; a missing user is a logged no-op. -/
def mark_hot_lead_notified (db : DB) (tg_id : Int) (now : Int) : DB :=
  match db tg_id with
  | none => db
  | some user =>
    fun i => if i = tg_id then
        some { user with hot_lead_notified_at := some now }
      else db i

/-- Result of `update_user_status` (app/database/requests.py lines 154-222):
the resulting store, whether a "new hot lead" notification was delivered in
this call, and the updated row returned to the caller (none when the user was
not found). -/
structure StatusUpdateResult where
  db : DB
  notification_sent : Bool
  updated_user : Option Lead

/-- Overwrite of one row of the lead store (a committed ORM session that
updated that row). -/
def db_write (db : DB) (tg_id : Int) (user : Lead) : DB :=
  fun i => if i = tg_id then some user else db i

/-- Field updates performed by `update_user_status` on the fetched row
(app/database/requests.py lines 170-179): the status is assigned
unconditionally, truthy optional arguments overwrite `priority`,
`first_name` and `priority_score`, and both activity timestamps are
refreshed. -/
def apply_status_fields (user : Lead) (status : String)
    (priority first_name : Option String) (priority_score : Option Int)
    (now : Int) : Lead :=
  { user with
    funnel_status := status,
    priority := match priority with
      | some p => if p = "" then user.priority else some p
      | none => user.priority,
    first_name := match first_name with
      | some f => if f = "" then user.first_name else some f
      | none => user.first_name,
    priority_score := match priority_score with
      | some sc => some sc
      | none => user.priority_score,
    last_activity_at := some now,
    updated_at := some now }

/-- Embedding of `update_user_status` (app/database/requests.py lines
154-222). The status is written unconditionally together with the optional
extra fields and fresh activity timestamps. When hot-lead alerts are enabled
and the new status starts with "hotlead_", the notification guard runs after
the commit: a lead already marked via `hot_lead_notified_at` is skipped, and
only a successful notification (modelled by the `notify_ok` oracle for the
external `notify_new_hot_lead` collaborator) marks the lead. -/
def update_user_status (db : DB) (tg_id : Int) (status : String)
    (priority : Option String) (first_name : Option String)
    (priority_score : Option Int) (enable_alerts : Bool) (notify_ok : Bool)
    (now : Int) : StatusUpdateResult :=
  match db tg_id with
  | none => ⟨db, false, none⟩
  | some user =>
    let user' : Lead :=
      apply_status_fields user status priority first_name priority_score now
    if enable_alerts ∧ status.startsWith "hotlead_" then
      if was_hot_lead_notified (db_write db tg_id user') tg_id then
        ⟨db_write db tg_id user', false, some user'⟩
      else if notify_ok then
        ⟨mark_hot_lead_notified (db_write db tg_id user') tg_id now, true,
          some user'⟩
      else ⟨db_write db tg_id user', false, some user'⟩
    else ⟨db_write db tg_id user', false, some user'⟩

/-- FUNNEL_STATUSES from app/constants.py lines 35-42: the closed status set
(both keys and values of the Python dict coincide). -/
def FUNNEL_STATUSES : List String :=
  ["new", "calculated", "hotlead_consultation", "hotlead_delayed",
   "coldlead_delayed", "coldlead"]

/-- Embedding of `_resolve_activity_timestamp` (app/drip_followups.py lines
131-153): a non-null `last_activity_at` wins outright; otherwise the non-null
fallbacks among `updated_at` and `created_at` are sorted by timestamp
descending with a stable sort (so `updated_at` wins ties) and the first is
chosen together with its source label. -/
def resolve_activity_timestamp (last_activity updated_at created_at : Option Int) :
    Option Int × Option String :=
  match last_activity with
  | some t => (some t, some "last_activity_at")
  | none =>
    match updated_at, created_at with
    | none, none => (none, none)
    | some u, none => (some u, some "updated_at")
    | none, some c => (some c, some "created_at")
    | some u, some c =>
      if u ≥ c then (some u, some "updated_at")
      else (some c, some "created_at")

/-- Skip reasons logged by `_process_snapshot` before any cohort evaluation
(app/drip_followups.py lines 335-379). -/
inductive SkipReason where
  | no_activity_timestamp
  | activity_in_future
deriving DecidableEq, Repr

/-- Embedding of the candidate gate of `_process_snapshot`
(app/drip_followups.py lines 343-366): a lead without a resolved reference
timestamp is skipped, and so is one whose reference timestamp lies in the
future (negative elapsed seconds); both return an empty decision list with a
logged reason. -/
def process_snapshot_gate (activity_at : Option Int) (now : Int) :
    Option SkipReason :=
  match activity_at with
  | none => some SkipReason.no_activity_timestamp
  | some t => if now - t < 0 then some SkipReason.activity_in_future else none

/-- Outgoing webhook payload, reduced to the fields `validate_payload`
inspects (app/webhook.py lines 58-93): the required keys `user_id`,
`lead_type` and `timestamp`, each nullable. -/
structure Payload where
  user_id : Option Int
  lead_type : Option String
  timestamp : Option String
deriving DecidableEq, Repr

/-- Known event kinds accepted by `validate_payload` (app/webhook.py line
82). -/
def known_lead_types : List String := ["hot", "cold", "calculated"]

/-- Embedding of `validate_payload` (app/webhook.py lines 58-93): false means
the Python function raises ValueError (missing required field, unknown lead
type, or falsy user id). -/
def validate_payload (p : Payload) : Bool :=
  match p.user_id, p.lead_type, p.timestamp with
  | some u, some lt, some _ =>
    if lt ∈ known_lead_types then
      if u = 0 then false else true
    else false
  | _, _, _ => false

/-- Outcome of one network attempt against the endpoint: an HTTP status, a
client timeout, or another transport exception. -/
inductive NetResult where
  | status (code : Nat)
  | timeout
  | netError
deriving DecidableEq, Repr

/-- Observable outcome of a `send_with_retry` call: the returned boolean, the
number of network attempts performed, the list of backoff delays (seconds)
awaited between consecutive attempts, how many times the success and error
metrics were recorded, and how many times payload validation ran. -/
structure RetryResult where
  ok : Bool
  attempts : Nat
  delays : List Nat
  error_logged : Nat
  success_logged : Nat
  validated : Nat
deriving DecidableEq, Repr

/-- Retry loop of `send_with_retry` (app/webhook.py lines 112-178), indexed
by the number of remaining loop iterations; the current attempt index is
`max_attempts - remaining`. Each iteration validates the payload (a
validation failure is fatal, recorded in the error metric, and makes zero
network attempts in that iteration), then performs one network attempt:
HTTP 200 succeeds, a 4xx status is non-retryable, and any other status,
timeout or exception consumes the attempt, logging the error metric only on
the final attempt, with an exponential backoff of 2^attempt seconds before
each following attempt. -/
def retry_go (p : Payload) (resp : Nat → NetResult) (max_attempts : Nat) :
    Nat → RetryResult
  | 0 => ⟨false, 0, [], 0, 0, 0⟩
  | remaining + 1 =>
    if validate_payload p then
      match resp (max_attempts - (remaining + 1)) with
      | NetResult.status code =>
        if code = 200 then ⟨true, 1, [], 0, 1, 1⟩
        else if 400 ≤ code ∧ code < 500 then ⟨false, 1, [], 1, 0, 1⟩
        else if remaining = 0 then ⟨false, 1, [], 1, 0, 1⟩
        else
          let r := retry_go p resp max_attempts remaining
          ⟨r.ok, r.attempts + 1, 2 ^ (max_attempts - (remaining + 1)) :: r.delays,
            r.error_logged, r.success_logged, r.validated + 1⟩
      | NetResult.timeout =>
        if remaining = 0 then ⟨false, 1, [], 1, 0, 1⟩
        else
          let r := retry_go p resp max_attempts remaining
          ⟨r.ok, r.attempts + 1, 2 ^ (max_attempts - (remaining + 1)) :: r.delays,
            r.error_logged, r.success_logged, r.validated + 1⟩
      | NetResult.netError =>
        if remaining = 0 then ⟨false, 1, [], 1, 0, 1⟩
        else
          let r := retry_go p resp max_attempts remaining
          ⟨r.ok, r.attempts + 1, 2 ^ (max_attempts - (remaining + 1)) :: r.delays,
            r.error_logged, r.success_logged, r.validated + 1⟩
    else ⟨false, 0, [], 1, 0, 1⟩

/-- Embedding of `send_with_retry` (app/webhook.py lines 96-178): when the
endpoint URL is not configured the call returns true immediately, with no
validation, no network attempt and no metrics update; otherwise the retry
loop runs for at most `max_attempts` iterations. -/
def send_with_retry (url_configured : Bool) (p : Payload)
    (resp : Nat → NetResult) (max_attempts : Nat) : RetryResult :=
  if url_configured then retry_go p resp max_attempts max_attempts
  else ⟨true, 0, [], 0, 0, 0⟩

/-- Process-local webhook health counters (app/webhook.py lines 19-54). -/
structure WebhookMetrics where
  success_count : Nat
  error_count : Nat
deriving DecidableEq, Repr

/-- Application of the metric updates of one `send_with_retry` call to the
process-local counters (`WebhookMetrics.log_success` / `log_error`). -/
def apply_metrics (m : WebhookMetrics) (r : RetryResult) : WebhookMetrics :=
  { success_count := m.success_count + r.success_logged,
    error_count := m.error_count + r.error_logged }

/-- Sample lead whose hot-lead marker is set, for concrete evaluations. -/
def lead_notified : Lead :=
  { lead_base with funnel_status := "hotlead_consultation",
                   hot_lead_notified_at := some 3 }

/-- C9: with the default threshold table (60, 1440, 2880 minutes), a lead at
drip stage 0 advances to stage 1 at exactly 60 elapsed minutes, and does not
advance at 59.999 elapsed minutes: the comparison in `_determine_next_stage`
is inclusive (`elapsed_minutes >= threshold`). -/
theorem threshold_boundary_inclusive :
    determine_next_stage defaultThresholds 0 60 = some 1 ∧
    determine_next_stage defaultThresholds 0 (59999 / 1000) = none := by
  constructor <;>
    norm_num [determine_next_stage, defaultThresholds, DRIP_STAGE_1_MIN,
      DRIP_STAGE_2_MIN, DRIP_STAGE_3_MIN]

/-- C1: with strictly increasing thresholds, `_determine_next_stage` returns
either none or exactly the successor of a non-negative current stage; and
`update_drip_stage` either leaves every stored row unchanged or bumps the
stage of the addressed row by exactly one above the expected current stage
(never lower, never by more than one). -/
theorem drip_stage_advance_at_most_one :
    (∀ (th : DripThresholds) (s : Int) (e : ℚ),
        th.t1 < th.t2 → th.t2 < th.t3 → 0 ≤ s →
        determine_next_stage th s e = none ∨
        determine_next_stage th s e = some (s + 1)) ∧
    (∀ (db : DB) (id f t n i : Int) (lead lead' : Lead),
        db i = some lead →
        (update_drip_stage db id f t n).2 i = some lead' →
        lead'.drip_stage = lead.drip_stage ∨
        lead'.drip_stage = lead.drip_stage + 1) ∧
    (∀ (db : DB) (id f t n i : Int),
        (update_drip_stage db id f t n).2 i ≠ db i →
        ∃ lead, db i = some lead ∧ lead.drip_stage = clamp_stage f ∧
          (update_drip_stage db id f t n).2 i =
            some { lead with drip_stage := clamp_stage f + 1,
                             updated_at := some n }) := by
  have part3 : ∀ (db : DB) (id f t n i : Int),
      (update_drip_stage db id f t n).2 i ≠ db i →
      ∃ lead, db i = some lead ∧ lead.drip_stage = clamp_stage f ∧
        (update_drip_stage db id f t n).2 i =
          some { lead with drip_stage := clamp_stage f + 1,
                           updated_at := some n } := by
    intro db id f t n i hne
    by_cases h1 : clamp_stage t ≤ clamp_stage f
    · have hres : (update_drip_stage db id f t n).2 = db := by
        simp [update_drip_stage, h1]
      exact absurd (congrFun hres i) hne
    by_cases h2 : clamp_stage t - clamp_stage f = 1
    · cases hdb : db id with
      | none =>
        have hres : (update_drip_stage db id f t n).2 = db := by
          simp [update_drip_stage, h1, h2, hdb]
        exact absurd (congrFun hres i) hne
      | some user =>
        by_cases hst : user.drip_stage = clamp_stage f
        · have hres : (update_drip_stage db id f t n).2 =
              fun j => if j = id then
                some { user with drip_stage := clamp_stage t,
                                 updated_at := some n }
              else db j := by
            simp [update_drip_stage, h1, h2, hdb, hst]
          by_cases hi : i = id
          · subst hi
            refine ⟨user, hdb, hst, ?_⟩
            have ht : clamp_stage t = clamp_stage f + 1 := by omega
            rw [congrFun hres i]
            simp [ht]
          · have heq : (update_drip_stage db id f t n).2 i = db i := by
              rw [congrFun hres i]
              simp [hi]
            exact absurd heq hne
        · have hres : (update_drip_stage db id f t n).2 = db := by
            simp [update_drip_stage, h1, h2, hdb, hst]
          exact absurd (congrFun hres i) hne
    · have hres : (update_drip_stage db id f t n).2 = db := by
        simp [update_drip_stage, h1, h2]
      exact absurd (congrFun hres i) hne
  refine ⟨?_, ?_, part3⟩
  · intro th s e h12 h23 hs
    have hcs : (if s < 0 then (0 : Int) else s) = s := if_neg (by omega)
    simp only [determine_next_stage, hcs]
    split_ifs with h1 h2 h3
    · right
      rw [h1.1]
      norm_num
    · right
      have hs0 : s ≠ 0 := by
        intro h0
        exact h1 ⟨h0, le_trans (le_of_lt h12) h2.2⟩
      have hs1 : s = 1 := by omega
      rw [hs1]
      norm_num
    · right
      have hs1 : ¬ s ≤ 1 := by
        intro hle
        exact h2 ⟨hle, le_trans (le_of_lt h23) h3.2⟩
      have hs2 : s = 2 := by omega
      rw [hs2]
      norm_num
    · left
      rfl
  · intro db id f t n i lead lead' hdb hres
    by_cases heq : (update_drip_stage db id f t n).2 i = db i
    · rw [heq, hdb] at hres
      left
      injection hres with h
      rw [h]
    · obtain ⟨lead0, hdb0, hst0, hres0⟩ := part3 db id f t n i heq
      rw [hdb] at hdb0
      injection hdb0 with h0
      subst h0
      rw [hres0] at hres
      injection hres with h
      right
      rw [← h]
      simp [hst0]

/-- Witness for C1 at concrete inputs: the default thresholds are strictly
increasing, stage 1 at 100 elapsed minutes does not advance, and advancing
the sample lead from stage 0 writes exactly stage 1. -/
theorem drip_stage_advance_at_most_one_witness :
    ((determine_next_stage defaultThresholds 1 100 = none ∨
      determine_next_stage defaultThresholds 1 100 = some (1 + 1))) ∧
    (lead_one.drip_stage = lead_base.drip_stage ∨
      lead_one.drip_stage = lead_base.drip_stage + 1) ∧
    (∃ lead, db_single 7 lead_base 7 = some lead ∧
      lead.drip_stage = clamp_stage 0 ∧
      (update_drip_stage (db_single 7 lead_base) 7 0 1 5).2 7 =
        some { lead with drip_stage := clamp_stage 0 + 1,
                         updated_at := some 5 }) :=
  ⟨drip_stage_advance_at_most_one.1 defaultThresholds 1 100
      (by norm_num [defaultThresholds, DRIP_STAGE_1_MIN, DRIP_STAGE_2_MIN])
      (by norm_num [defaultThresholds, DRIP_STAGE_2_MIN, DRIP_STAGE_3_MIN])
      (by decide),
   drip_stage_advance_at_most_one.2.1 (db_single 7 lead_base) 7 0 1 5 7
      lead_base lead_one (by decide) (by decide),
   drip_stage_advance_at_most_one.2.2 (db_single 7 lead_base) 7 0 1 5 7
      (by decide)⟩

theorem clamp_stage_of_range {s : Int} (h0 : 0 ≤ s) (h3 : s ≤ 3) :
    clamp_stage s = s := by
  unfold clamp_stage
  rw [min_eq_right h3]
  exact max_eq_right h0

/-- C2, settled as a code bug: the stage-advance call is attempted only
after a confirmed successful delivery, but the keywords it supplies (cohort,
stage) cannot bind against the keyword-only parameters of
`update_drip_stage` (from_stage, to_stage), so every such call raises
TypeError into the surrounding except branch: the compare-and-set body never
executes, the store is left unchanged, and the follow-up call still returns
true. Invoked directly with matching keywords at the same input, the
compare-and-set itself would succeed. -/
theorem drip_advance_call_type_error :
    keyword_binding_ok advance_call_keywords update_drip_stage_keywords
      = false ∧
    (∀ (db : DB) (txt : String) (advance : DB → Bool × DB),
        (send_followup db (some txt) true advance).sent = true ∧
        (send_followup db (some txt) true advance).advance_attempted = true ∧
        (send_followup db (some txt) true advance).advance_executed = false ∧
        (send_followup db (some txt) true advance).db = db) ∧
    (∀ (db : DB) (rt : Option String) (send_ok : Bool)
        (advance : DB → Bool × DB),
        (send_followup db rt send_ok advance).advance_attempted = true →
        send_ok = true ∧ rt.isSome = true) ∧
    (update_drip_stage (db_single 7 lead_base) 7 0 1 5).1 = true := by
  have hbind : keyword_binding_ok advance_call_keywords
      update_drip_stage_keywords = false := by decide
  refine ⟨hbind, ?_, ?_, by decide⟩
  · intro db txt advance
    refine ⟨?_, ?_, ?_, ?_⟩ <;> simp [send_followup, hbind]
  · intro db rt send_ok advance h
    cases rt with
    | none => simp [send_followup] at h
    | some txt =>
      cases send_ok with
      | false => simp [send_followup] at h
      | true => exact ⟨rfl, rfl⟩

/-- Witness for C2 at the failing input: a confirmed send for the sample
lead attempts the advance, never executes the compare-and-set, leaves the
store unchanged and still reports success; the attempt only happens after a
confirmed send. -/
theorem drip_advance_call_type_error_witness :
    (send_followup (db_single 7 lead_base) (some "hi") true
        (fun d => (false, d))).sent = true ∧
    (send_followup (db_single 7 lead_base) (some "hi") true
        (fun d => (false, d))).advance_attempted = true ∧
    (send_followup (db_single 7 lead_base) (some "hi") true
        (fun d => (false, d))).advance_executed = false ∧
    (send_followup (db_single 7 lead_base) (some "hi") true
        (fun d => (false, d))).db = db_single 7 lead_base ∧
    (true = true ∧ (some "hi" : Option String).isSome = true) :=
  ⟨(drip_advance_call_type_error.2.1 (db_single 7 lead_base) "hi"
      (fun d => (false, d))).1,
   (drip_advance_call_type_error.2.1 (db_single 7 lead_base) "hi"
      (fun d => (false, d))).2.1,
   (drip_advance_call_type_error.2.1 (db_single 7 lead_base) "hi"
      (fun d => (false, d))).2.2.1,
   (drip_advance_call_type_error.2.1 (db_single 7 lead_base) "hi"
      (fun d => (false, d))).2.2.2,
   drip_advance_call_type_error.2.2.1 (db_single 7 lead_base) (some "hi")
      true (fun d => (false, d)) (by decide)⟩

theorem cancel_timer_next_id (st : TimerState) (u : Int) :
    (cancel_timer st u).next_id = st.next_id := by
  unfold cancel_timer
  cases st.pending u <;> rfl

theorem cancel_timer_cancelled_ge (st : TimerState) (u : Int)
    (hwf : TimerWF st) :
    ∀ m, st.next_id ≤ m → (cancel_timer st u).cancelled m = false := by
  intro m hm
  unfold cancel_timer
  cases hp : st.pending u with
  | none => exact hwf.1 m hm
  | some t =>
    have ht : t < st.next_id := hwf.2 u t hp
    simp only
    rw [if_neg (by omega)]
    exact hwf.1 m hm

theorem cancel_timer_pending_lt (st : TimerState) (u : Int)
    (hwf : TimerWF st) :
    ∀ v t, (cancel_timer st u).pending v = some t → t < st.next_id := by
  intro v t
  unfold cancel_timer
  cases hp : st.pending u with
  | none => exact hwf.2 v t
  | some t0 =>
    simp only
    by_cases hv : v = u
    · rw [if_pos hv]
      intro h
      exact absurd h (by simp)
    · rw [if_neg hv]
      exact hwf.2 v t

theorem start_timer_pending_self (st : TimerState) (u : Int) :
    (start_calculated_timer st u).pending u = some st.next_id := by
  unfold start_calculated_timer
  simp [cancel_timer_next_id]

theorem start_timer_next_id (st : TimerState) (u : Int) :
    (start_calculated_timer st u).next_id = st.next_id + 1 := by
  unfold start_calculated_timer
  simp [cancel_timer_next_id]

theorem start_timer_cancelled_ge (st : TimerState) (u : Int)
    (hwf : TimerWF st) :
    ∀ m, st.next_id ≤ m → (start_calculated_timer st u).cancelled m = false := by
  intro m hm
  unfold start_calculated_timer
  simp only
  exact cancel_timer_cancelled_ge st u hwf m hm

theorem start_timer_cancelled_eq (st : TimerState) (u : Int) :
    (start_calculated_timer st u).cancelled = (cancel_timer st u).cancelled :=
  rfl

theorem cancel_timer_cancelled_of_pending (st : TimerState) (u : Int)
    (t : Nat) (hp : st.pending u = some t) :
    (cancel_timer st u).cancelled t = true := by
  unfold cancel_timer
  rw [hp]
  simp

theorem start_timer_wf (st : TimerState) (u : Int) (hwf : TimerWF st) :
    TimerWF (start_calculated_timer st u) := by
  constructor
  · intro m hm
    rw [start_timer_next_id] at hm
    exact start_timer_cancelled_ge st u hwf m (by omega)
  · intro v t hv
    rw [start_timer_next_id]
    unfold start_calculated_timer at hv
    simp only at hv
    by_cases hvu : v = u
    · rw [if_pos hvu] at hv
      rw [cancel_timer_next_id] at hv
      injection hv with h
      omega
    · rw [if_neg hvu] at hv
      have := cancel_timer_pending_lt st u hwf v t hv
      omega

/-- C3: starting the calculated-lead timer twice for the same user leaves
exactly one pending timer, the second one: the first task is cancelled by the
second start (so its deferred action can never run), the freshly created
second task is not cancelled, starting cancels any previously pending task
first, and cancelling with no pending timer is a no-op. -/
theorem timer_cancel_and_replace :
    ∀ (st : TimerState) (u : Int), TimerWF st →
      (start_calculated_timer st u).pending u = some st.next_id ∧
      (start_calculated_timer (start_calculated_timer st u) u).pending u =
        some (st.next_id + 1) ∧
      (start_calculated_timer (start_calculated_timer st u) u).cancelled
        st.next_id = true ∧
      (start_calculated_timer (start_calculated_timer st u) u).cancelled
        (st.next_id + 1) = false ∧
      (∀ t, st.pending u = some t →
        (start_calculated_timer st u).cancelled t = true) ∧
      (st.pending u = none → cancel_timer st u = st) := by
  intro st u hwf
  have h1 := start_timer_pending_self st u
  have hwf1 := start_timer_wf st u hwf
  refine ⟨h1, ?_, ?_, ?_, ?_, ?_⟩
  · rw [start_timer_pending_self, start_timer_next_id]
  · rw [start_timer_cancelled_eq]
    exact cancel_timer_cancelled_of_pending (start_calculated_timer st u) u
      st.next_id h1
  · exact start_timer_cancelled_ge (start_calculated_timer st u) u hwf1
      (st.next_id + 1) (le_of_eq (start_timer_next_id st u))
  · intro t hp
    rw [start_timer_cancelled_eq]
    exact cancel_timer_cancelled_of_pending st u t hp
  · intro hp
    unfold cancel_timer
    rw [hp]

theorem timer_init_wf : TimerWF timer_init :=
  ⟨fun _ _ => rfl, fun _ _ h => Option.noConfusion h⟩

/-- Witness for C3 on the empty registry and user 42: after two starts the
pending task is the second one (id 1), task 0 is cancelled, task 1 is not,
and cancelling on the empty registry changes nothing. -/
theorem timer_cancel_and_replace_witness :
    (start_calculated_timer timer_init 42).pending 42 = some 0 ∧
    (start_calculated_timer (start_calculated_timer timer_init 42) 42).pending
      42 = some (0 + 1) ∧
    (start_calculated_timer (start_calculated_timer timer_init 42) 42).cancelled
      0 = true ∧
    (start_calculated_timer (start_calculated_timer timer_init 42) 42).cancelled
      (0 + 1) = false ∧
    cancel_timer timer_init 42 = timer_init :=
  ⟨(timer_cancel_and_replace timer_init 42 timer_init_wf).1,
   (timer_cancel_and_replace timer_init 42 timer_init_wf).2.1,
   (timer_cancel_and_replace timer_init 42 timer_init_wf).2.2.1,
   (timer_cancel_and_replace timer_init 42 timer_init_wf).2.2.2.1,
   (timer_cancel_and_replace timer_init 42 timer_init_wf).2.2.2.2.2 rfl⟩

theorem apply_status_marker (user : Lead) (status : String)
    (p f : Option String) (ps : Option Int) (now : Int) :
    (apply_status_fields user status p f ps now).hot_lead_notified_at =
      user.hot_lead_notified_at :=
  rfl

theorem apply_status_funnel (user : Lead) (status : String)
    (p f : Option String) (ps : Option Int) (now : Int) :
    (apply_status_fields user status p f ps now).funnel_status = status :=
  rfl

theorem was_hot_db_write (db : DB) (tg_id : Int) (u : Lead) :
    was_hot_lead_notified (db_write db tg_id u) tg_id =
      u.hot_lead_notified_at.isSome := by
  simp [was_hot_lead_notified, db_write]

theorem was_hot_after_mark (db : DB) (tg_id : Int) (u : Lead) (now : Int) :
    was_hot_lead_notified
      (mark_hot_lead_notified (db_write db tg_id u) tg_id now) tg_id = true := by
  simp [mark_hot_lead_notified, was_hot_lead_notified, db_write]

theorem uus_sent_false_of_marker (db : DB) (tg_id : Int) (status : String)
    (p f : Option String) (ps : Option Int) (ea no : Bool) (n : Int)
    (h : was_hot_lead_notified db tg_id = true) :
    (update_user_status db tg_id status p f ps ea no n).notification_sent
      = false := by
  cases hdb : db tg_id with
  | none => simp [update_user_status, hdb]
  | some user =>
    have hmark : user.hot_lead_notified_at.isSome = true := by
      simpa [was_hot_lead_notified, hdb] using h
    simp only [update_user_status, hdb]
    rw [was_hot_db_write, apply_status_marker, hmark]
    simp

theorem uus_marker_after_sent (db : DB) (tg_id : Int) (status : String)
    (p f : Option String) (ps : Option Int) (ea no : Bool) (n : Int)
    (h : (update_user_status db tg_id status p f ps ea no n).notification_sent
      = true) :
    was_hot_lead_notified
      (update_user_status db tg_id status p f ps ea no n).db tg_id = true := by
  cases hdb : db tg_id with
  | none => simp [update_user_status, hdb] at h
  | some user =>
    simp only [update_user_status, hdb] at h ⊢
    split_ifs at h ⊢ with hc hg hn
    all_goals simpa using
      was_hot_after_mark db tg_id (apply_status_fields user status p f ps n) n

/-- C4: once the `hot_lead_notified_at` marker is set, `update_user_status`
never sends another "new hot lead" notification for that lead, and two
successive transitions of the same lead trigger at most one notification: the
engine checks `was_hot_lead_notified` before notifying and marks the lead
after a successful notification. -/
theorem hot_lead_notification_idempotent :
    ∀ (db : DB) (id : Int) (lead : Lead) (s1 s2 : String)
      (p1 p2 f1 f2 : Option String) (ps1 ps2 : Option Int)
      (ea1 ea2 no1 no2 : Bool) (n1 n2 : Int),
      db id = some lead →
      (lead.hot_lead_notified_at.isSome = true →
        (update_user_status db id s1 p1 f1 ps1 ea1 no1 n1).notification_sent
          = false) ∧
      ¬((update_user_status db id s1 p1 f1 ps1 ea1 no1 n1).notification_sent
          = true ∧
        (update_user_status
            (update_user_status db id s1 p1 f1 ps1 ea1 no1 n1).db
            id s2 p2 f2 ps2 ea2 no2 n2).notification_sent = true) := by
  intro db id lead s1 s2 p1 p2 f1 f2 ps1 ps2 ea1 ea2 no1 no2 n1 n2 hdb
  constructor
  · intro hm
    apply uus_sent_false_of_marker
    simp [was_hot_lead_notified, hdb, hm]
  · rintro ⟨h1, h2⟩
    have hw := uus_marker_after_sent db id s1 p1 f1 ps1 ea1 no1 n1 h1
    have h2f := uus_sent_false_of_marker
      ((update_user_status db id s1 p1 f1 ps1 ea1 no1 n1).db) id s2 p2 f2
      ps2 ea2 no2 n2 hw
    rw [h2] at h2f
    exact Bool.noConfusion h2f

/-- Witness for C4 on a lead whose marker is already set: the first hot-lead
transition notifies nobody, and two successive transitions never notify
twice. -/
theorem hot_lead_notification_idempotent_witness :
    ((update_user_status (db_single 9 lead_notified) 9 "hotlead_delayed" none
        none none true true 11).notification_sent = false) ∧
    ¬(((update_user_status (db_single 9 lead_notified) 9 "hotlead_delayed"
        none none none true true 11).notification_sent = true) ∧
      ((update_user_status (update_user_status (db_single 9 lead_notified) 9
          "hotlead_delayed" none none none true true 11).db 9
          "hotlead_consultation" none none none true true
          12).notification_sent = true)) :=
  ⟨(hot_lead_notification_idempotent (db_single 9 lead_notified) 9
      lead_notified "hotlead_delayed" "hotlead_consultation" none none none
      none none none true true true true 11 12 (by decide)).1 (by decide),
   (hot_lead_notification_idempotent (db_single 9 lead_notified) 9
      lead_notified "hotlead_delayed" "hotlead_consultation" none none none
      none none none true true true true 11 12 (by decide)).2⟩

theorem retry_go_all_500 (p : Payload) (resp : Nat → NetResult) (n : Nat)
    (hv : validate_payload p = true)
    (h500 : ∀ i, resp i = NetResult.status 500) :
    ∀ remaining, 1 ≤ remaining → remaining ≤ n →
      retry_go p resp n remaining =
        ⟨false, remaining,
          (List.range' (n - remaining) (remaining - 1)).map (fun j => 2 ^ j),
          1, 0, remaining⟩ := by
  intro remaining
  induction remaining with
  | zero => omega
  | succ k ih =>
    intro _ hle
    by_cases hk : k = 0
    · subst hk
      simp [retry_go, hv, h500 (n - 1)]
    · have ihk := ih (by omega) (by omega)
      have hdelays : List.map (fun j => 2 ^ j) (List.range' (n - (k + 1)) k) =
          2 ^ (n - (k + 1)) ::
            List.map (fun j => 2 ^ j) (List.range' (n - k) (k - 1)) := by
        obtain ⟨k', rfl⟩ : ∃ k', k = k' + 1 := ⟨k - 1, by omega⟩
        rw [List.range'_succ, List.map_cons]
        have harith : n - (k' + 1 + 1) + 1 = n - (k' + 1) := by omega
        rw [harith]
        simp
      simp [retry_go, hv, h500 (n - (k + 1)), hk, ihk, hdelays]

theorem chain_lt_pow_range' (len s : Nat) :
    List.Chain' (fun a b => a < b)
      ((List.range' s len).map (fun j => 2 ^ j)) := by
  have hp : List.Pairwise (fun a b => a < b)
      ((List.range' s len).map (fun j => 2 ^ j)) := by
    rw [List.pairwise_map]
    exact (List.pairwise_lt_range' s len).imp
      (fun h => Nat.pow_lt_pow_of_lt Nat.one_lt_two h)
  exact hp.chain'

/-- C5: against an endpoint that always answers HTTP 500, `send_with_retry`
with a positive budget makes exactly `max_attempts` network attempts,
sleeps a strictly increasing exponential backoff (2^attempt seconds) between
consecutive attempts, finally returns false, and records exactly one terminal
failure in the process-local error counter. -/
theorem retry_exhaustion_on_server_error :
    ∀ (p : Payload) (resp : Nat → NetResult) (n : Nat) (m : WebhookMetrics),
      1 ≤ n → validate_payload p = true →
      (∀ i, resp i = NetResult.status 500) →
      (send_with_retry true p resp n).ok = false ∧
      (send_with_retry true p resp n).attempts = n ∧
      (send_with_retry true p resp n).delays =
        (List.range (n - 1)).map (fun j => 2 ^ j) ∧
      List.Chain' (fun a b => a < b) (send_with_retry true p resp n).delays ∧
      (send_with_retry true p resp n).error_logged = 1 ∧
      (apply_metrics m (send_with_retry true p resp n)).error_count =
        m.error_count + 1 := by
  intro p resp n m hn hv h500
  have hall := retry_go_all_500 p resp n hv h500 n hn (le_refl n)
  have hsend : send_with_retry true p resp n = retry_go p resp n n := by
    simp [send_with_retry]
  have h0 : n - n = 0 := by omega
  rw [hsend, hall]
  refine ⟨by simp, by simp, ?_, ?_, by simp, by simp [apply_metrics]⟩
  · simp [h0, List.range_eq_range']
  · simpa [h0] using chain_lt_pow_range' (n - 1) 0

/-- Witness for C5: a budget of 3 against a constant-500 endpoint makes three
attempts with backoffs 1 and 2 seconds, fails, and bumps the error counter
from 0 to 1. -/
theorem retry_exhaustion_on_server_error_witness :
    (send_with_retry true ⟨some 1, some "hot", some "t"⟩
        (fun _ => NetResult.status 500) 3).ok = false ∧
    (send_with_retry true ⟨some 1, some "hot", some "t"⟩
        (fun _ => NetResult.status 500) 3).attempts = 3 ∧
    (send_with_retry true ⟨some 1, some "hot", some "t"⟩
        (fun _ => NetResult.status 500) 3).delays =
      (List.range (3 - 1)).map (fun j => 2 ^ j) ∧
    List.Chain' (fun a b => a < b)
      (send_with_retry true ⟨some 1, some "hot", some "t"⟩
        (fun _ => NetResult.status 500) 3).delays ∧
    (send_with_retry true ⟨some 1, some "hot", some "t"⟩
        (fun _ => NetResult.status 500) 3).error_logged = 1 ∧
    (apply_metrics ⟨0, 0⟩ (send_with_retry true ⟨some 1, some "hot", some "t"⟩
        (fun _ => NetResult.status 500) 3)).error_count = (0 : Nat) + 1 :=
  retry_exhaustion_on_server_error ⟨some 1, some "hot", some "t"⟩
    (fun _ => NetResult.status 500) 3 ⟨0, 0⟩ (by decide) (by decide)
    (fun _ => rfl)

/-- C8: with a configured endpoint, a payload whose event kind is outside the
known set fails validation before any network call: `send_with_retry` makes
zero network attempts, waits no backoff, immediately returns false, and the
validation failure is counted once in the error metric and never in the
success metric. -/
theorem invalid_lead_type_zero_attempts :
    ∀ (u : Int) (k ts : String) (resp : Nat → NetResult) (n : Nat),
      u ≠ 0 → ¬ k ∈ known_lead_types → 1 ≤ n →
      (send_with_retry true ⟨some u, some k, some ts⟩ resp n).ok = false ∧
      (send_with_retry true ⟨some u, some k, some ts⟩ resp n).attempts = 0 ∧
      (send_with_retry true ⟨some u, some k, some ts⟩ resp n).delays = [] ∧
      (send_with_retry true ⟨some u, some k, some ts⟩ resp n).error_logged
        = 1 ∧
      (send_with_retry true ⟨some u, some k, some ts⟩ resp n).success_logged
        = 0 := by
  intro u k ts resp n hu hk hn
  have hv : validate_payload ⟨some u, some k, some ts⟩ = false := by
    simp [validate_payload, hk]
  obtain ⟨n', rfl⟩ : ∃ n', n = n' + 1 := ⟨n - 1, by omega⟩
  simp [send_with_retry, retry_go, hv]

/-- Witness for C8: the built-in connection test payload kind "test" is
rejected with zero attempts even against an endpoint that would answer 200. -/
theorem invalid_lead_type_zero_attempts_witness :
    (send_with_retry true ⟨some 5, some "test", some "now"⟩
        (fun _ => NetResult.status 200) 3).ok = false ∧
    (send_with_retry true ⟨some 5, some "test", some "now"⟩
        (fun _ => NetResult.status 200) 3).attempts = 0 ∧
    (send_with_retry true ⟨some 5, some "test", some "now"⟩
        (fun _ => NetResult.status 200) 3).delays = [] ∧
    (send_with_retry true ⟨some 5, some "test", some "now"⟩
        (fun _ => NetResult.status 200) 3).error_logged = 1 ∧
    (send_with_retry true ⟨some 5, some "test", some "now"⟩
        (fun _ => NetResult.status 200) 3).success_logged = 0 :=
  invalid_lead_type_zero_attempts 5 "test" "now"
    (fun _ => NetResult.status 200) 3 (by decide) (by decide) (by decide)

/-- C10: when the endpoint URL is not configured, `send_with_retry` returns
true for every payload, valid or not, with zero validations, zero network
attempts, no backoff and no metrics update, so a true result does not imply
delivery. -/
theorem webhook_url_unset_returns_true :
    ∀ (p : Payload) (resp : Nat → NetResult) (n : Nat),
      send_with_retry false p resp n =
        { ok := true, attempts := 0, delays := [], error_logged := 0,
          success_logged := 0, validated := 0 } := by
  intro p resp n
  simp [send_with_retry]

/-- Counterexample for C6: with `last_activity_at` null, `updated_at` 100 and
`created_at` 200, `_resolve_activity_timestamp` does not choose `updated_at`
as the claimed priority order requires; it chooses the more recent
`created_at`. -/
theorem activity_priority_order_counterexample :
    (resolve_activity_timestamp none (some 100) (some 200)).1 ≠ some 100 ∧
    resolve_activity_timestamp none (some 100) (some 200) =
      (some 200, some "created_at") := by
  constructor <;> decide

/-- C6 amended: the reference activity timestamp is `last_activity_at` when
non-null; otherwise it is the most recent of the non-null values among
`updated_at` and `created_at` (with `updated_at` preferred on ties), not the
fixed priority order; and a lead with no resolvable timestamp, or one whose
reference timestamp lies in the future, is skipped with a logged reason. -/
theorem activity_timestamp_resolution_amended :
    (∀ (t : Int) (u c : Option Int),
      resolve_activity_timestamp (some t) u c =
        (some t, some "last_activity_at")) ∧
    (∀ u c : Int, c ≤ u →
      resolve_activity_timestamp none (some u) (some c) =
        (some u, some "updated_at")) ∧
    (∀ u c : Int, u < c →
      resolve_activity_timestamp none (some u) (some c) =
        (some c, some "created_at")) ∧
    (∀ u : Int, resolve_activity_timestamp none (some u) none =
      (some u, some "updated_at")) ∧
    (∀ c : Int, resolve_activity_timestamp none none (some c) =
      (some c, some "created_at")) ∧
    (resolve_activity_timestamp none none none = (none, none)) ∧
    (∀ now : Int, process_snapshot_gate none now =
      some SkipReason.no_activity_timestamp) ∧
    (∀ t now : Int, now < t → process_snapshot_gate (some t) now =
      some SkipReason.activity_in_future) ∧
    (∀ t now : Int, t ≤ now → process_snapshot_gate (some t) now = none) := by
  refine ⟨?_, ?_, ?_, ?_, ?_, rfl, ?_, ?_, ?_⟩
  · intro t u c
    rfl
  · intro u c h
    simp only [resolve_activity_timestamp]
    rw [if_pos (by omega : u ≥ c)]
  · intro u c h
    simp only [resolve_activity_timestamp]
    rw [if_neg (by omega : ¬ u ≥ c)]
  · intro u
    rfl
  · intro c
    rfl
  · intro now
    rfl
  · intro t now h
    simp only [process_snapshot_gate]
    rw [if_pos (by omega : now - t < 0)]
  · intro t now h
    simp only [process_snapshot_gate]
    rw [if_neg (by omega : ¬ now - t < 0)]

/-- Witness for C6 amended, at concrete timestamps. -/
theorem activity_timestamp_resolution_amended_witness :
    resolve_activity_timestamp (some 7) (some 100) (some 200) =
      (some 7, some "last_activity_at") ∧
    resolve_activity_timestamp none (some 5) (some 3) =
      (some 5, some "updated_at") ∧
    resolve_activity_timestamp none (some 3) (some 5) =
      (some 5, some "created_at") ∧
    process_snapshot_gate (some 10) 4 =
      some SkipReason.activity_in_future ∧
    process_snapshot_gate (some 4) 10 = none :=
  ⟨activity_timestamp_resolution_amended.1 7 (some 100) (some 200),
   activity_timestamp_resolution_amended.2.1 5 3 (by decide),
   activity_timestamp_resolution_amended.2.2.1 3 5 (by decide),
   activity_timestamp_resolution_amended.2.2.2.2.2.2.2.1 10 4 (by decide),
   activity_timestamp_resolution_amended.2.2.2.2.2.2.2.2 4 10 (by decide)⟩

/-- Counterexample for C7: "bogus" is outside the closed funnel status set,
yet `update_user_status` neither raises nor skips: it stores "bogus" in the
lead record and returns the updated row. -/
theorem status_validation_counterexample :
    ¬ "bogus" ∈ FUNNEL_STATUSES ∧
    ((update_user_status (db_single 42 lead_base) 42 "bogus" none none none
        true true 5).db 42).map (fun u => u.funnel_status) = some "bogus" ∧
    (update_user_status (db_single 42 lead_base) 42 "bogus" none none none
        true true 5).updated_user.isSome = true := by
  refine ⟨by decide, by decide, by decide⟩

theorem funnel_after_db_write (db : DB) (tg_id : Int) (u : Lead) :
    ((db_write db tg_id u) tg_id).map (fun x => x.funnel_status) =
      some u.funnel_status := by
  simp [db_write]

theorem funnel_after_mark (db : DB) (tg_id : Int) (u : Lead) (now : Int) :
    ((mark_hot_lead_notified (db_write db tg_id u) tg_id now) tg_id).map
      (fun x => x.funnel_status) = some u.funnel_status := by
  simp [mark_hot_lead_notified, db_write]

/-- C7 amended: `update_user_status` performs no validation of the status
value: for every status string, including those outside the closed
FUNNEL_STATUSES set, the value is stored unchanged in the lead record and
echoed in the returned row whenever the lead exists; a missing lead is a
logged no-op, and no InvalidStatus rejection exists. -/
theorem status_stored_without_validation :
    (∀ (db : DB) (id : Int) (status : String) (p f : Option String)
        (ps : Option Int) (ea no : Bool) (n : Int) (lead : Lead),
      db id = some lead →
      ((update_user_status db id status p f ps ea no n).db id).map
          (fun u => u.funnel_status) = some status ∧
      ((update_user_status db id status p f ps ea no n).updated_user).map
          (fun u => u.funnel_status) = some status) ∧
    (∀ (db : DB) (id : Int) (status : String) (p f : Option String)
        (ps : Option Int) (ea no : Bool) (n : Int),
      db id = none →
      update_user_status db id status p f ps ea no n = ⟨db, false, none⟩) := by
  constructor
  · intro db id status p f ps ea no n lead hdb
    constructor
    · simp only [update_user_status, hdb]
      split_ifs with hc hg hn
      · rw [funnel_after_db_write, apply_status_funnel]
      · rw [funnel_after_mark, apply_status_funnel]
      · rw [funnel_after_db_write, apply_status_funnel]
      · rw [funnel_after_db_write, apply_status_funnel]
    · simp only [update_user_status, hdb]
      split_ifs with hc hg hn <;> simp [apply_status_funnel]
  · intro db id status p f ps ea no n hdb
    simp [update_user_status, hdb]

/-- Witness for C7 amended: a status outside the closed set is stored and
echoed verbatim, and a missing lead yields the untouched store. -/
theorem status_stored_without_validation_witness :
    ((update_user_status (db_single 42 lead_base) 42 "whatever" none none none
        true true 5).db 42).map (fun u => u.funnel_status) =
      some "whatever" ∧
    ((update_user_status (db_single 42 lead_base) 42 "whatever" none none none
        true true 5).updated_user).map (fun u => u.funnel_status) =
      some "whatever" ∧
    update_user_status (db_single 42 lead_base) 43 "calculated" none none none
        true true 5 = ⟨db_single 42 lead_base, false, none⟩ :=
  ⟨(status_stored_without_validation.1 (db_single 42 lead_base) 42 "whatever"
      none none none true true 5 lead_base (by decide)).1,
   (status_stored_without_validation.1 (db_single 42 lead_base) 42 "whatever"
      none none none true true 5 lead_base (by decide)).2,
   status_stored_without_validation.2 (db_single 42 lead_base) 43 "calculated"
      none none none true true 5 (by decide)⟩
